import Mathlib

/-!
Verification of the secure-file-upload validation pipeline.

The definitions below are a shallow embedding of the JavaScript sources of
the repository: `src/common_config.js`, `src/pdf_multer.js`, `src/image_multer.js`,
`src/utils/imageCompressor.js` (`validateFile`), the `upload.js` multer
configuration, and the Express `/upload` and `/upload/pdf` handlers in
`src/server.js`.  Strings are Lean `String`s, file bytes are `List Nat`,
and the uploads directory is an association list from stored names to bytes.
-/

namespace SecureUpload

/-- ASCII lowering of a single character, embedding the effect of JavaScript
`String.prototype.toLowerCase` on the ASCII filenames and MIME strings the
pipeline handles. -/
def lowerChar (c : Char) : Char :=
  match c with
  | 'A' => 'a' | 'B' => 'b' | 'C' => 'c' | 'D' => 'd' | 'E' => 'e' | 'F' => 'f'
  | 'G' => 'g' | 'H' => 'h' | 'I' => 'i' | 'J' => 'j' | 'K' => 'k' | 'L' => 'l'
  | 'M' => 'm' | 'N' => 'n' | 'O' => 'o' | 'P' => 'p' | 'Q' => 'q' | 'R' => 'r'
  | 'S' => 's' | 'T' => 't' | 'U' => 'u' | 'V' => 'v' | 'W' => 'w' | 'X' => 'x'
  | 'Y' => 'y' | 'Z' => 'z'
  | other => other

/-- JavaScript `s.toLowerCase()` (ASCII fragment). -/
def jsToLower (s : String) : String := ⟨s.data.map lowerChar⟩

/-- Drop leading slash characters. -/
def dropLeadingSlashes : List Char → List Char
  | [] => []
  | c :: r => if c = '/' then dropLeadingSlashes r else c :: r

/-- Drop trailing slash characters, as Node `path.extname` skips trailing
separators before locating the final path segment. -/
def dropTrailingSlashes (l : List Char) : List Char :=
  (dropLeadingSlashes l.reverse).reverse

/-- The suffix of `l` that starts right after the last slash, if any. -/
def segTail : List Char → Option (List Char)
  | [] => none
  | c :: rest =>
    match segTail rest with
    | some s => some s
    | none => if c = '/' then some rest else none

/-- The final path segment (Node `path.basename` restricted to what
`path.extname` needs). -/
def lastSeg (l : List Char) : List Char :=
  match segTail l with
  | none => l
  | some s => s

/-- The suffix of `l` that starts at the last dot, if any. -/
def extTail : List Char → Option (List Char)
  | [] => none
  | c :: rest =>
    match extTail rest with
    | some e => some e
    | none => if c = '.' then some (c :: rest) else none

/-- Extension of a single path segment, following Node `path.extname`:
empty when there is no dot, when the only dot is the leading character
(hidden files such as `.bashrc`), or for the special two-dot segment. -/
def extnamePart (p : List Char) : List Char :=
  if p = ['.', '.'] then []
  else
    match extTail p with
    | none => []
    | some e => if e.length = p.length then [] else e

/-- Node `path.extname`. -/
def extname (s : String) : String :=
  ⟨extnamePart (lastSeg (dropTrailingSlashes s.data))⟩

/-! ### The dangerous-extension regex

`common_config.js` (and the `upload.js` variant) define
`DANGEROUS_EXTENSIONS_REGEX =
/\.(php|php\d|phtml|exe|sh|bash|pl|py|js|jsp|asp|aspx|bat|cmd|vbs|wsf)(\.|$)/i`
and apply `.test` to the already-lowercased original filename. -/

/-- The fixed alternatives of the regex (the `php\d` alternative is handled
separately because of its digit wildcard). -/
def dangerousFixedTokens : List (List Char) :=
  [['p','h','p'], ['p','h','t','m','l'], ['e','x','e'], ['s','h'],
   ['b','a','s','h'], ['p','l'], ['p','y'], ['j','s'], ['j','s','p'],
   ['a','s','p'], ['a','s','p','x'], ['b','a','t'], ['c','m','d'],
   ['v','b','s'], ['w','s','f']]

/-- Strip the literal `tok` from the front of `l`. -/
def stripTok : List Char → List Char → Option (List Char)
  | [], l => some l
  | _ :: _, [] => none
  | t :: ts, c :: cs => if c = t then stripTok ts cs else none

/-- The regex group `(\.|$)`: the next character is a dot or the string ends. -/
def boundary : List Char → Bool
  | [] => true
  | c :: _ => c = '.'

/-- Does one of the regex alternatives followed by `(\.|$)` match at the head
of `l` (which is the text right after a literal dot)? -/
def tokAt (l : List Char) : Bool :=
  (dangerousFixedTokens.any fun t =>
    match stripTok t l with
    | some rest => boundary rest
    | none => false)
  ||
  (match stripTok ['p','h','p'] l with
   | some (c :: rest) => c.isDigit && boundary rest
   | some [] => false
   | none => false)

/-- `DANGEROUS_EXTENSIONS_REGEX.test` on an (already lowercased) filename:
some position holds a dot followed by a dangerous token and a boundary. -/
def dangerousTest : List Char → Bool
  | [] => false
  | c :: rest => (c = '.' && tokAt rest) || dangerousTest rest

/-! ### FilenamePolicy / fileFilter -/

/-- The policy data of one multer configuration: the extension allowlist and the
client-declared MIME allowlist (`allowedExts` / `allowedMimes` arguments of
`createUploadMiddleware`, or the constants in `pdf_multer.js`,
`image_multer.js` and `upload.js`). -/
structure ContentClass where
  allowedExts : List String
  allowedMimes : List String
  deriving DecidableEq, Repr

/-- The reasons `fileFilter` passes to its callback as `Error` values. -/
inductive FilterReason where
  /-- Error Invalid file type (extension not in the allowlist). -/
  | extensionNotAllowed
  /-- Error Potential double extension attack detected. -/
  | doubleExtension
  /-- Error Invalid MIME type reported by client. -/
  | mimeNotAllowed
  deriving DecidableEq, Repr

/-- Outcome of `fileFilter`. -/
inductive FilterResult where
  | accepted
  | rejected (r : FilterReason)
  deriving DecidableEq, Repr

/-- The shared `fileFilter` of `common_config.js` (identical in structure in
`pdf_multer.js`, `image_multer.js` and `upload.js`): lowercase the original
name, check the final extension against the allowlist, then the dangerous
double-extension regex, then the client-declared MIME type. -/
def fileFilter (cc : ContentClass) (originalname mimetype : String) : FilterResult :=
  let originalName := jsToLower originalname
  let ext := extname originalName
  if ext ∉ cc.allowedExts then .rejected .extensionNotAllowed
  else if dangerousTest originalName.data then .rejected .doubleExtension
  else if mimetype ∉ cc.allowedMimes then .rejected .mimeNotAllowed
  else .accepted

/-- The combined configuration of `upload.js` (legacy `/upload` endpoint):
extensions `.pdf .jpg .jpeg .png`, MIMEs pdf/jpeg/png. -/
def uploadConfig : ContentClass :=
  ⟨[".pdf", ".jpg", ".jpeg", ".png"],
   ["application/pdf", "image/jpeg", "image/png"]⟩

/-- `pdf_multer.js` and the `imageUploadpdf` middleware of the second
`server.js` variant: extension `.pdf`, MIME `application/pdf`. -/
def pdfConfig : ContentClass :=
  ⟨[".pdf"], ["application/pdf"]⟩

/-- `image_multer.js`: extensions `.jpg .jpeg .png`, MIMEs jpeg/png. -/
def imageConfig : ContentClass :=
  ⟨[".jpg", ".jpeg", ".png"], ["image/jpeg", "image/png"]⟩

/-- The `imageUpload` middleware of the second `server.js` variant, whose
MIME allowlist also admits `image/webp`. -/
def imageConfigV2 : ContentClass :=
  ⟨[".jpg", ".jpeg", ".png"], ["image/jpeg", "image/png", "image/webp"]⟩

/-! ### Storage, StorageNamer and the signature sniffer -/

/-- The `uploads/` directory: stored filenames paired with their bytes. -/
abbrev Storage := List (String × List Nat)

/-- The bytes of an ASCII text payload. -/
def strBytes (s : String) : List Nat := s.data.map Char.toNat

/-- The `filename` callback of `multer.diskStorage` in `common_config.js` and
`upload.js`: a fresh UUID concatenated with
`path.extname(file.originalname).toLowerCase()`.  The UUID is a parameter
here, modelling `uuidv4()`. -/
def storedName (uuid originalname : String) : String :=
  uuid ++ jsToLower (extname originalname)

/-- Remove every entry stored under path `p` (the effect of `fs.unlink`). -/
def removeFile (st : Storage) (p : String) : Storage :=
  st.filter fun kv => kv.1 ≠ p

/-- `console.log` / `console.error` events the claims talk about. -/
inductive LogEntry where
  /-- Console line Upload blocked — a multer error (fileFilter rejection or size limit). -/
  | uploadBlocked
  /-- Console line Valid file uploaded. -/
  | validFile
  /-- Console line Security Validation Failed. -/
  | securityValidationFailed
  /-- Console line Malicious/Invalid file deleted. -/
  | fileDeleted
  /-- Console line Failed to delete invalid file — the unlink itself failed. -/
  | deleteFailed (path : String)
  deriving DecidableEq, Repr

/-- The guarded deletion in the validation-failure paths
(`server.js` `/upload` catch block, `validateFile` catch block): try to
unlink the staged file; on success log the deletion, on failure log the
unlink error instead of swallowing it.  `unlinkOk` models whether the
filesystem deletion succeeds. -/
def unlinkStep (unlinkOk : Bool) (st : Storage) (p : String)
    (log : List LogEntry) : Storage × List LogEntry :=
  if unlinkOk then (removeFile st p, log ++ [.fileDeleted])
  else (st, log ++ [.deleteFailed p])

/-- Modelled from the spec: the external `file-type` library
(`fileTypeFromFile`) is not part of this repository; per the spec it is a
content-sniffing algorithm independent of filename or declared type that
identifies the true format of a file by inspecting a fixed byte pattern at a
known offset.  This model covers exactly the formats the pipeline of the
repository accepts — PDF (`%PDF`), JPEG (`FF D8 FF`) and PNG (the 8-byte PNG
signature) — and reports `none` for anything else, as `file-type` does for
plain text. -/
def fileTypeFromBytes (bytes : List Nat) : Option String :=
  if List.isPrefixOf [0x25, 0x50, 0x44, 0x46] bytes then some "application/pdf"
  else if List.isPrefixOf [0xFF, 0xD8, 0xFF] bytes then some "image/jpeg"
  else if List.isPrefixOf [0x89, 0x50, 0x4E, 0x47, 0x0D, 0x0A, 0x1A, 0x0A] bytes then
    some "image/png"
  else none

/-- Failure cases of the magic-byte validation. -/
inductive VerifyFailure where
  /-- Error Could not determine file signature / Possible fake file. -/
  | undeterminableSignature
  /-- Error Magic-byte check failed, carrying the detected type. -/
  | signatureMismatch (detected : String)
  deriving DecidableEq, Repr

/-- Outcome of the magic-byte validation. -/
inductive VerifyOutcome where
  | verified (detectedType : String)
  | failed (f : VerifyFailure)
  deriving DecidableEq, Repr

/-- The decision logic shared by the magic-byte check of the `/upload` handler
(`server.js` lines 41–54) and `validateFile` (`imageCompressor.js` lines
315–323): sniff the staged bytes; an unrecognized signature fails as
undeterminable, a recognized signature outside the allowlist fails as a
mismatch carrying the detected type, and a recognized allowed signature is
verified.  `sniff` abstracts the `file-type` library. -/
def signatureVerdict (sniff : List Nat → Option String)
    (allowedMimes : List String) (bytes : List Nat) : VerifyOutcome :=
  match sniff bytes with
  | none => .failed .undeterminableSignature
  | some m => if m ∈ allowedMimes then .verified m else .failed (.signatureMismatch m)

/-- `fileTypeFromFile(filePath)` reads only the bytes of the staged file, so
the view the verifier has of a staged upload is a function of those bytes
alone. -/
def verifyStaged (sniff : List Nat → Option String) (allowedMimes : List String)
    (bytes : List Nat) : VerifyOutcome :=
  signatureVerdict sniff allowedMimes bytes

/-! ### The ingest pipelines -/

/-- One upload request as the HTTP layer hands it to multer. -/
structure UploadRequest where
  originalname : String
  mimetype : String
  bytes : List Nat

/-- Terminal outcome of one upload, as reported to the caller. -/
inductive UploadOutcome where
  /-- HTTP 400 from a `fileFilter` rejection (multer error). -/
  | filterRejected (r : FilterReason)
  /-- HTTP 400 from the multer LIMIT_FILE_SIZE error (File too large). -/
  | fileTooLarge
  /-- HTTP 400 after the staged file failed magic-byte validation. -/
  | verificationRejected (f : VerifyFailure)
  /-- HTTP 200 with `{ filename, detectedType, size }`. -/
  | accepted (filename : String) (detectedType : String) (size : Nat)
  deriving DecidableEq, Repr

/-- Result of a whole request: the response, the uploads directory after the
handler returned, and the console log. -/
structure PipelineResult where
  outcome : UploadOutcome
  storage : Storage
  log : List LogEntry
  deriving DecidableEq, Repr

/-- The `/upload` handler of the first `server.js` variant composed with the
`upload.js` multer middleware (same shape as `handleUpload` +
`pdf_multer`/`image_multer` in the third variant), parameterized the way
`createUploadMiddleware` is: (1) `fileFilter`; on rejection multer reports
an error and nothing is written; (2) the `limits.fileSize` check, enforced
during the write — on `LIMIT_FILE_SIZE` multer discards the partial file;
(3) the staged file is written under `storedName`; (4) magic-byte
validation of the staged bytes; on failure the staged file is unlinked
(logging an unlink failure) before the 400 response is produced. -/
def pipelineUpload (cc : ContentClass) (limit : Nat) (magicAllowed : List String)
    (sniff : List Nat → Option String) (unlinkOk : Bool)
    (uuid : String) (st : Storage) (req : UploadRequest) : PipelineResult :=
  match fileFilter cc req.originalname req.mimetype with
  | .rejected r => ⟨.filterRejected r, st, [.uploadBlocked]⟩
  | .accepted =>
    if req.bytes.length > limit then ⟨.fileTooLarge, st, [.uploadBlocked]⟩
    else
      let name := storedName uuid req.originalname
      let staged : Storage := st ++ [(name, req.bytes)]
      match verifyStaged sniff magicAllowed req.bytes with
      | .verified t => ⟨.accepted name t req.bytes.length, staged, [.validFile]⟩
      | .failed f =>
        let cleaned := unlinkStep unlinkOk staged name [.securityValidationFailed]
        ⟨.verificationRejected f, cleaned.1, cleaned.2⟩

/-- The legacy `/upload` endpoint (first `server.js` variant): the combined
allowlist of `upload.js`, the 2 MB limit, and the magic-byte allowlist of
the handler: application/pdf, image/jpeg and image/png. -/
def pipelineLegacyUpload (sniff : List Nat → Option String) (unlinkOk : Bool)
    (uuid : String) (st : Storage) (req : UploadRequest) : PipelineResult :=
  pipelineUpload uploadConfig (2 * 1024 * 1024)
    ["application/pdf", "image/jpeg", "image/png"] sniff unlinkOk uuid st req

/-- The `/upload/pdf` endpoint of the second `server.js` variant:
`Uploaderpdf` is applied to the field name only, without a `targetSize`, so the
`if (targetSize)` guard skips both the recompression and the
`validateFile` call: after `imageUploadpdf` (pdf extension/MIME allowlists,
3 MB limit) stages the file, the handler immediately answers 200 with the
hardcoded detectedType image/webp.  No sniffing function appears here
because the code never consults one on this route. -/
def pipelineUploadPdfV2 (uuid : String) (st : Storage) (req : UploadRequest) :
    PipelineResult :=
  match fileFilter pdfConfig req.originalname req.mimetype with
  | .rejected r => ⟨.filterRejected r, st, [.uploadBlocked]⟩
  | .accepted =>
    if req.bytes.length > 3 * 1024 * 1024 then ⟨.fileTooLarge, st, [.uploadBlocked]⟩
    else
      let name := storedName uuid req.originalname
      ⟨.accepted name "image/webp" req.bytes.length,
       st ++ [(name, req.bytes)], [.validFile]⟩

/-- The minimal valid PDF written by `scripts/safe_gen.js` as
`valid_doc.pdf`. -/
def validDocPdfBytes : List Nat :=
  strBytes "%PDF-1.0\n1 0 obj<</Type/Catalog/Pages 2 0 R>>endobj 2 0 obj<</Type/Pages/Kids[3 0 R]/Count 1>>endobj 3 0 obj<</Type/Page/MediaBox[0 0 3 3]>>endobj\nxref\n0 4\n0000000000 65535 f\n0000000010 00000 n\n0000000060 00000 n\n0000000111 00000 n\ntrailer<</Size 4/Root 1 0 R>>\nstartxref\n178\n%%EOF"

/-- The plain-text payload `scripts/safe_gen.js` writes as `test_fake.pdf`. -/
def testFakePdfBytes : List Nat :=
  strBytes "This is a text file masked as a PDF."

/-! ### Claim-side predicate for C2

C2 quantifies over filenames that contain, anywhere in the lowercased
name, a dangerous extension token immediately followed by a dot or
end-of-string — with no requirement of a dot before the token.  This
definition follows the words of the claim, to be compared with `dangerousTest`
(which follows the source regex and requires the preceding dot). -/
def tokenAnywhere : List Char → Bool
  | [] => false
  | c :: rest => tokAt (c :: rest) || tokenAnywhere rest

/-! ## Helper lemmas

ASCII lowering touches neither dots nor slashes, so it commutes with the
extension extraction; this underlies the relation between the extension the
`fileFilter` validates (`extname` of the lowercased name) and the extension
the `diskStorage` filename callback appends (lowercased `extname` of the
original name). -/

theorem lowerChar_eq_dot {c : Char} : lowerChar c = '.' ↔ c = '.' := by
  unfold lowerChar
  split <;> simp_all

theorem lowerChar_eq_slash {c : Char} : lowerChar c = '/' ↔ c = '/' := by
  unfold lowerChar
  split <;> simp_all

theorem dropLeadingSlashes_map (l : List Char) :
    dropLeadingSlashes (l.map lowerChar) = (dropLeadingSlashes l).map lowerChar := by
  induction l with
  | nil => rfl
  | cons c r ih =>
    simp only [List.map_cons, dropLeadingSlashes]
    by_cases h : c = '/'
    · subst h; simp [show lowerChar '/' = '/' from rfl, ih]
    · have h2 : ¬ lowerChar c = '/' := fun hh => h (lowerChar_eq_slash.mp hh)
      simp [h, h2]

theorem dropTrailingSlashes_map (l : List Char) :
    dropTrailingSlashes (l.map lowerChar) = (dropTrailingSlashes l).map lowerChar := by
  unfold dropTrailingSlashes
  rw [← List.map_reverse, dropLeadingSlashes_map, List.map_reverse]

theorem segTail_map (l : List Char) :
    segTail (l.map lowerChar) = (segTail l).map (List.map lowerChar) := by
  induction l with
  | nil => rfl
  | cons c r ih =>
    simp only [List.map_cons, segTail, ih]
    cases h : segTail r with
    | some s => simp
    | none =>
      by_cases hc : c = '/'
      · subst hc; simp [show lowerChar '/' = '/' from rfl]
      · have h2 : ¬ lowerChar c = '/' := fun hh => hc (lowerChar_eq_slash.mp hh)
        simp [hc, h2]

theorem lastSeg_map (l : List Char) :
    lastSeg (l.map lowerChar) = (lastSeg l).map lowerChar := by
  unfold lastSeg
  rw [segTail_map]
  cases segTail l <;> simp

theorem extTail_map (l : List Char) :
    extTail (l.map lowerChar) = (extTail l).map (List.map lowerChar) := by
  induction l with
  | nil => rfl
  | cons c r ih =>
    simp only [List.map_cons, extTail, ih]
    cases h : extTail r with
    | some e => simp
    | none =>
      by_cases hc : c = '.'
      · subst hc; simp [show lowerChar '.' = '.' from rfl]
      · have h2 : ¬ lowerChar c = '.' := fun hh => hc (lowerChar_eq_dot.mp hh)
        simp [hc, h2]

theorem map_lowerChar_eq_dotdot (l : List Char) :
    l.map lowerChar = ['.', '.'] ↔ l = ['.', '.'] := by
  cases l with
  | nil => simp
  | cons a t =>
    cases t with
    | nil => simp
    | cons b u =>
      cases u with
      | nil => simp [lowerChar_eq_dot]
      | cons c v => simp

theorem extnamePart_map (p : List Char) :
    extnamePart (p.map lowerChar) = (extnamePart p).map lowerChar := by
  by_cases h : p = ['.', '.']
  · subst h; rfl
  · have h2 : ¬ (p.map lowerChar = ['.', '.']) :=
      fun hh => h ((map_lowerChar_eq_dotdot p).mp hh)
    unfold extnamePart
    rw [if_neg h2, if_neg h, extTail_map]
    cases he : extTail p with
    | none => simp
    | some e =>
      by_cases hl : e.length = p.length
      · simp [hl]
      · simp [hl]

theorem extname_jsToLower (s : String) :
    extname (jsToLower s) = jsToLower (extname s) := by
  unfold extname jsToLower
  simp only [dropTrailingSlashes_map, lastSeg_map, extnamePart_map]

/-- Every entry stored under the unlinked path is gone after `removeFile`. -/
theorem removeFile_not_mem (st : Storage) (p : String) (bs : List Nat) :
    (p, bs) ∉ removeFile st p := by
  intro h
  have := List.of_mem_filter h
  simp at this

/-! ## Claim theorems -/

/-- Claim C7: for every filename whose final extension (extracted
case-insensitively) is not a member of the allowlist of the content class,
`fileFilter` rejects with the extension-not-allowed reason (the Invalid
file type error), and the result is independent of the client-declared
MIME type, which is never consulted for such filenames. -/
theorem c7_extension_not_allowed (cc : ContentClass) (name mime : String)
    (h : extname (jsToLower name) ∉ cc.allowedExts) :
    fileFilter cc name mime = .rejected .extensionNotAllowed
    ∧ ∀ mime2 : String, fileFilter cc name mime2 = fileFilter cc name mime := by
  constructor
  · simp [fileFilter, h]
  · intro mime2
    simp [fileFilter, h]

/-- Witness for C7 at the concrete repository test file test_blocked.php
with two different declared MIME types. -/
theorem c7_extension_not_allowed_witness :
    extname (jsToLower "evil.exe") ∉ uploadConfig.allowedExts
    ∧ fileFilter uploadConfig "evil.exe" "application/pdf"
        = .rejected .extensionNotAllowed
    ∧ fileFilter uploadConfig "evil.exe" "text/plain"
        = fileFilter uploadConfig "evil.exe" "application/pdf" :=
  ⟨by decide,
   (c7_extension_not_allowed uploadConfig "evil.exe" "application/pdf" (by decide)).1,
   (c7_extension_not_allowed uploadConfig "evil.exe" "application/pdf" (by decide)).2
     "text/plain"⟩

/-- Claim C2, counterexample: the filename xphp.pdf has an allowlisted final
extension and contains the dangerous token php immediately followed by a
dot, yet `fileFilter` accepts it (with a valid declared MIME type), because
the source regex additionally requires a dot before the token.
`tokenAnywhere` is the claim-side predicate. -/
theorem c2_counterexample :
    extname (jsToLower "xphp.pdf") ∈ uploadConfig.allowedExts
    ∧ tokenAnywhere (jsToLower "xphp.pdf").data = true
    ∧ fileFilter uploadConfig "xphp.pdf" "application/pdf" = .accepted := by
  refine ⟨by decide, by decide, by decide⟩

/-- Claim C2 as amended: for every filename whose final extension
(extracted case-insensitively) is in the allowlist of the content class and
which contains, anywhere in the lowercased name, a dot immediately followed
by a dangerous extension token immediately followed by a dot or
end-of-string (the source regex `dangerousTest`), `fileFilter` rejects with
the double-extension-detected reason. -/
theorem c2_amended_double_extension (cc : ContentClass) (name mime : String)
    (h1 : extname (jsToLower name) ∈ cc.allowedExts)
    (h2 : dangerousTest (jsToLower name).data = true) :
    fileFilter cc name mime = .rejected .doubleExtension := by
  simp [fileFilter, h1, h2]

/-- Witness for the amended C2 at the repository test name x.php.pdf. -/
theorem c2_amended_double_extension_witness :
    extname (jsToLower "x.php.pdf") ∈ uploadConfig.allowedExts
    ∧ dangerousTest (jsToLower "x.php.pdf").data = true
    ∧ fileFilter uploadConfig "x.php.pdf" "application/pdf"
        = .rejected .doubleExtension :=
  ⟨by decide, by decide,
   c2_amended_double_extension uploadConfig "x.php.pdf" "application/pdf"
     (by decide) (by decide)⟩

/-- Claim C6, counterexample: test_blocked.php has an invalid final
extension and matches the dangerous-extension regex, but `fileFilter`
reports extension-not-allowed, not double-extension-detected, because the
allowlist check runs first. -/
theorem c6_counterexample :
    extname (jsToLower "test_blocked.php") ∉ uploadConfig.allowedExts
    ∧ dangerousTest (jsToLower "test_blocked.php").data = true
    ∧ fileFilter uploadConfig "test_blocked.php" "application/pdf"
        = .rejected .extensionNotAllowed
    ∧ fileFilter uploadConfig "test_blocked.php" "application/pdf"
        ≠ .rejected .doubleExtension := by
  refine ⟨by decide, by decide, by decide, by decide⟩

/-- Claim C6 as amended: when a filename has both an invalid final extension
and a dangerous embedded extension token, `fileFilter` reports
extension-not-allowed — the allowlist check takes precedence in reporting
because it runs first; double-extension-detected is reported only when the
final extension is allowlisted. -/
theorem c6_amended_precedence (cc : ContentClass) (name mime : String)
    (h1 : extname (jsToLower name) ∉ cc.allowedExts)
    (_h2 : dangerousTest (jsToLower name).data = true) :
    fileFilter cc name mime = .rejected .extensionNotAllowed := by
  simp [fileFilter, h1]

/-- Witness for the amended C6 at the concrete name shell.php. -/
theorem c6_amended_precedence_witness :
    extname (jsToLower "shell.php") ∉ uploadConfig.allowedExts
    ∧ dangerousTest (jsToLower "shell.php").data = true
    ∧ fileFilter uploadConfig "shell.php" "application/pdf"
        = .rejected .extensionNotAllowed :=
  ⟨by decide, by decide,
   c6_amended_precedence uploadConfig "shell.php" "application/pdf"
     (by decide) (by decide)⟩

/-- Claim C10: a filename with no extension (the extracted final extension
is empty, such as README — or the lone-dot extension of a name such as
archive.) is rejected by `fileFilter` with extension-not-allowed for every
content class whose allowed extensions are all dot-prefixed and non-empty,
and the pipeline purges it without writing anything to storage. -/
theorem c10_no_extension_rejected (cc : ContentClass) (name mime : String)
    (hcc : ∀ e ∈ cc.allowedExts, 2 ≤ e.length ∧ e.data.head? = some '.')
    (hext : extname (jsToLower name) = "" ∨ extname (jsToLower name) = ".") :
    fileFilter cc name mime = .rejected .extensionNotAllowed
    ∧ ∀ (limit : Nat) (magic : List String) (sniff : List Nat → Option String)
        (unlinkOk : Bool) (uuid : String) (st : Storage) (bytes : List Nat),
        pipelineUpload cc limit magic sniff unlinkOk uuid st ⟨name, mime, bytes⟩
          = ⟨.filterRejected .extensionNotAllowed, st, [.uploadBlocked]⟩ := by
  have hnot : extname (jsToLower name) ∉ cc.allowedExts := by
    intro hmem
    have hlen := (hcc _ hmem).1
    rcases hext with he | he <;> rw [he] at hlen <;> simp [String.length] at hlen
  have hf : fileFilter cc name mime = .rejected .extensionNotAllowed := by
    simp [fileFilter, hnot]
  refine ⟨hf, ?_⟩
  intro limit magic sniff unlinkOk uuid st bytes
  simp [pipelineUpload, hf]

/-- Witness for C10 at README (empty extension) and archive. (lone-dot
extension), under the combined upload configuration. -/
theorem c10_no_extension_rejected_witness :
    fileFilter uploadConfig "README" "text/plain" = .rejected .extensionNotAllowed
    ∧ pipelineUpload uploadConfig (2 * 1024 * 1024)
        ["application/pdf", "image/jpeg", "image/png"] fileTypeFromBytes true
        "u-c10" [] ⟨"archive.", "application/pdf", strBytes "x"⟩
        = ⟨.filterRejected .extensionNotAllowed, [], [.uploadBlocked]⟩ :=
  ⟨(c10_no_extension_rejected uploadConfig "README" "text/plain" (by decide)
      (Or.inl (by decide))).1,
   (c10_no_extension_rejected uploadConfig "archive." "application/pdf" (by decide)
      (Or.inr (by decide))).2
     (2 * 1024 * 1024) ["application/pdf", "image/jpeg", "image/png"]
     fileTypeFromBytes true "u-c10" [] (strBytes "x")⟩

/-- Claim C4: whenever the pipeline reports a signature-verification
failure, the staged file has already been deleted from the returned storage
state (when the unlink succeeds no entry under the staged name survives),
and when the deletion itself fails the failure is logged — a
verification-failed file never remains on storage without an
operator-visible log entry. -/
theorem c4_purge_on_verification_failure (cc : ContentClass) (limit : Nat)
    (magic : List String) (sniff : List Nat → Option String) (unlinkOk : Bool)
    (uuid : String) (st : Storage) (req : UploadRequest) (f : VerifyFailure)
    (h : (pipelineUpload cc limit magic sniff unlinkOk uuid st req).outcome
          = .verificationRejected f) :
    (unlinkOk = true →
      (pipelineUpload cc limit magic sniff unlinkOk uuid st req).storage
        = removeFile (st ++ [(storedName uuid req.originalname, req.bytes)])
            (storedName uuid req.originalname)
      ∧ ∀ bs : List Nat,
          (storedName uuid req.originalname, bs)
            ∉ (pipelineUpload cc limit magic sniff unlinkOk uuid st req).storage)
    ∧ (unlinkOk = false →
      LogEntry.deleteFailed (storedName uuid req.originalname)
        ∈ (pipelineUpload cc limit magic sniff unlinkOk uuid st req).log) := by
  cases hf : fileFilter cc req.originalname req.mimetype with
  | rejected r => simp [pipelineUpload, hf] at h
  | accepted =>
    by_cases hs : req.bytes.length > limit
    · simp [pipelineUpload, hf, hs] at h
    · cases hv : verifyStaged sniff magic req.bytes with
      | verified t => simp [pipelineUpload, hf, hs, hv] at h
      | failed f2 =>
        cases unlinkOk with
        | false =>
          constructor
          · intro hee; cases hee
          · intro _
            simp [pipelineUpload, hf, hs, hv, unlinkStep]
        | true =>
          constructor
          · intro _
            constructor
            · simp [pipelineUpload, hf, hs, hv, unlinkStep]
            · intro bs hmem
              have hst : (pipelineUpload cc limit magic sniff true uuid st req).storage
                  = removeFile (st ++ [(storedName uuid req.originalname, req.bytes)])
                      (storedName uuid req.originalname) := by
                simp [pipelineUpload, hf, hs, hv, unlinkStep]
              rw [hst] at hmem
              exact removeFile_not_mem _ _ _ hmem
          · intro hee; cases hee

/-- Witness for C4 at a staged text file named note.pdf whose deletion
fails, so the failure must appear in the log. -/
theorem c4_purge_on_verification_failure_witness :
    (pipelineLegacyUpload fileTypeFromBytes false "u-c4" []
        ⟨"note.pdf", "application/pdf", strBytes "hello"⟩).outcome
      = .verificationRejected .undeterminableSignature
    ∧ LogEntry.deleteFailed (storedName "u-c4" "note.pdf")
        ∈ (pipelineLegacyUpload fileTypeFromBytes false "u-c4" []
            ⟨"note.pdf", "application/pdf", strBytes "hello"⟩).log :=
  ⟨by decide,
   (c4_purge_on_verification_failure uploadConfig (2 * 1024 * 1024)
      ["application/pdf", "image/jpeg", "image/png"] fileTypeFromBytes false
      "u-c4" [] ⟨"note.pdf", "application/pdf", strBytes "hello"⟩
      .undeterminableSignature (by decide)).2 rfl⟩

/-- Claim C8: the outcome of the signature verifier is a total function of
the staged bytes with exactly three cases — unrecognized signature fails as
undeterminable, a recognized signature outside the allowed set fails as a
mismatch carrying the detected type, and a recognized allowed signature is
verified — and two staged files with the same bytes always receive the same
verdict, regardless of filename or declared type (which the verifier never
receives). -/
theorem c8_signature_verdict_cases (sniff : List Nat → Option String)
    (allowed : List String) (bytes : List Nat) :
    ((sniff bytes = none
        ∧ signatureVerdict sniff allowed bytes = .failed .undeterminableSignature)
      ∨ (∃ m, sniff bytes = some m ∧ m ∉ allowed
        ∧ signatureVerdict sniff allowed bytes = .failed (.signatureMismatch m))
      ∨ (∃ m, sniff bytes = some m ∧ m ∈ allowed
        ∧ signatureVerdict sniff allowed bytes = .verified m))
    ∧ ∀ bytes2 : List Nat, bytes = bytes2 →
        verifyStaged sniff allowed bytes = verifyStaged sniff allowed bytes2 := by
  constructor
  · cases hsn : sniff bytes with
    | none => exact Or.inl ⟨rfl, by simp [signatureVerdict, hsn]⟩
    | some m =>
      by_cases hm : m ∈ allowed
      · exact Or.inr (Or.inr ⟨m, rfl, hm, by simp [signatureVerdict, hsn, hm]⟩)
      · exact Or.inr (Or.inl ⟨m, rfl, hm, by simp [signatureVerdict, hsn, hm]⟩)
  · intro bytes2 h
    rw [h]

/-- Witness for C8 at the plain-text bytes of test_fake.pdf under the
magic-byte allowlist of the legacy upload handler. -/
theorem c8_signature_verdict_cases_witness :
    signatureVerdict fileTypeFromBytes
        ["application/pdf", "image/jpeg", "image/png"] testFakePdfBytes
      = .failed .undeterminableSignature
    ∧ verifyStaged fileTypeFromBytes
        ["application/pdf", "image/jpeg", "image/png"] testFakePdfBytes
      = verifyStaged fileTypeFromBytes
        ["application/pdf", "image/jpeg", "image/png"] testFakePdfBytes := by
  refine ⟨by decide,
    (c8_signature_verdict_cases fileTypeFromBytes
      ["application/pdf", "image/jpeg", "image/png"] testFakePdfBytes).2
      testFakePdfBytes rfl⟩

/-- Claim C9, counterexample: an upload whose byte size exceeds the 2 MB
limit but whose filename also fails the extension allowlist is purged with
the extension-not-allowed reason, not with size-exceeded, because the
fileFilter runs before the size limit is enforced. -/
theorem c9_counterexample :
    (List.replicate (2 * 1024 * 1024 + 1) (0 : Nat)).length > 2 * 1024 * 1024
    ∧ (pipelineLegacyUpload fileTypeFromBytes true "u-c9" []
        ⟨"x.exe", "application/pdf", List.replicate (2 * 1024 * 1024 + 1) 0⟩).outcome
      = .filterRejected .extensionNotAllowed
    ∧ (pipelineLegacyUpload fileTypeFromBytes true "u-c9" []
        ⟨"x.exe", "application/pdf", List.replicate (2 * 1024 * 1024 + 1) 0⟩).outcome
      ≠ .fileTooLarge := by
  refine ⟨?_, ?_, ?_⟩
  · simp only [List.length_replicate]
    omega
  · rfl
  · intro h
    rw [show (pipelineLegacyUpload fileTypeFromBytes true "u-c9" []
        ⟨"x.exe", "application/pdf", List.replicate (2 * 1024 * 1024 + 1) 0⟩).outcome
      = .filterRejected .extensionNotAllowed from rfl] at h
    cases h

/-- Claim C9 as amended: for every upload that passes the fileFilter and
whose byte size exceeds the configured limit, the pipeline ends with the
size-exceeded outcome (multer LIMIT_FILE_SIZE), nothing remains in storage,
and the signature verifier is never invoked — the result is identical for
any two sniffing functions. -/
theorem c9_amended_size_exceeded (cc : ContentClass) (limit : Nat)
    (magic : List String) (sniff1 sniff2 : List Nat → Option String)
    (unlinkOk : Bool) (uuid : String) (st : Storage) (req : UploadRequest)
    (hf : fileFilter cc req.originalname req.mimetype = .accepted)
    (hs : req.bytes.length > limit) :
    pipelineUpload cc limit magic sniff1 unlinkOk uuid st req
      = ⟨.fileTooLarge, st, [.uploadBlocked]⟩
    ∧ pipelineUpload cc limit magic sniff1 unlinkOk uuid st req
      = pipelineUpload cc limit magic sniff2 unlinkOk uuid st req := by
  constructor <;> simp [pipelineUpload, hf, hs]

/-- Witness for the amended C9: a well-named, well-typed PDF upload of
2 MB + 1 byte is rejected as too large with storage untouched, and the
outcome does not depend on the sniffing function. -/
theorem c9_amended_size_exceeded_witness :
    fileFilter uploadConfig "big.pdf" "application/pdf" = .accepted
    ∧ pipelineUpload uploadConfig (2 * 1024 * 1024)
        ["application/pdf", "image/jpeg", "image/png"] fileTypeFromBytes true
        "u-c9w" [] ⟨"big.pdf", "application/pdf", List.replicate (2 * 1024 * 1024 + 1) 0⟩
      = ⟨.fileTooLarge, [], [.uploadBlocked]⟩
    ∧ pipelineUpload uploadConfig (2 * 1024 * 1024)
        ["application/pdf", "image/jpeg", "image/png"] fileTypeFromBytes true
        "u-c9w" [] ⟨"big.pdf", "application/pdf", List.replicate (2 * 1024 * 1024 + 1) 0⟩
      = pipelineUpload uploadConfig (2 * 1024 * 1024)
        ["application/pdf", "image/jpeg", "image/png"] (fun _ => none) true
        "u-c9w" [] ⟨"big.pdf", "application/pdf", List.replicate (2 * 1024 * 1024 + 1) 0⟩ :=
  ⟨by decide,
   (c9_amended_size_exceeded uploadConfig (2 * 1024 * 1024)
      ["application/pdf", "image/jpeg", "image/png"] fileTypeFromBytes
      (fun _ => none) true "u-c9w" []
      ⟨"big.pdf", "application/pdf", List.replicate (2 * 1024 * 1024 + 1) 0⟩
      (by decide) (by simp only [List.length_replicate]; omega)).1,
   (c9_amended_size_exceeded uploadConfig (2 * 1024 * 1024)
      ["application/pdf", "image/jpeg", "image/png"] fileTypeFromBytes
      (fun _ => none) true "u-c9w" []
      ⟨"big.pdf", "application/pdf", List.replicate (2 * 1024 * 1024 + 1) 0⟩
      (by decide) (by simp only [List.length_replicate]; omega)).2⟩

/-- Claim C5: for every accepted upload the assigned storage name is the
fresh random identifier concatenated with the validated final extension —
which the fileFilter has checked against the allowlist — and nothing else
of the untrusted original filename: two originals with the same final
extension receive identical storage names for the same identifier, so the
stored name is never influenced by the non-extension part of the original
name. -/
theorem c5_storage_name :
    (∀ (cc : ContentClass) (name mime uuid : String),
      fileFilter cc name mime = .accepted →
      storedName uuid name = uuid ++ extname (jsToLower name)
      ∧ extname (jsToLower name) ∈ cc.allowedExts)
    ∧ ∀ (n1 n2 uuid : String),
        extname (jsToLower n1) = extname (jsToLower n2) →
        storedName uuid n1 = storedName uuid n2 := by
  constructor
  · intro cc name mime uuid h
    have hmem : extname (jsToLower name) ∈ cc.allowedExts := by
      by_contra hm
      simp [fileFilter, hm] at h
    refine ⟨?_, hmem⟩
    rw [storedName, extname_jsToLower]
  · intro n1 n2 uuid h
    unfold storedName
    rw [← extname_jsToLower, ← extname_jsToLower, h]

/-- Witness for C5 at the mixed-case name My_Report.PDF and at two names
sharing only the pdf extension. -/
theorem c5_storage_name_witness :
    fileFilter uploadConfig "My_Report.PDF" "application/pdf" = .accepted
    ∧ storedName "u-c5" "My_Report.PDF"
        = "u-c5" ++ extname (jsToLower "My_Report.PDF")
    ∧ extname (jsToLower "My_Report.PDF") ∈ uploadConfig.allowedExts
    ∧ storedName "u-c5" "report_a.pdf" = storedName "u-c5" "totally_other.pdf" :=
  ⟨by decide,
   (c5_storage_name.1 uploadConfig "My_Report.PDF" "application/pdf" "u-c5"
      (by decide)).1,
   (c5_storage_name.1 uploadConfig "My_Report.PDF" "application/pdf" "u-c5"
      (by decide)).2,
   c5_storage_name.2 "report_a.pdf" "totally_other.pdf" "u-c5" (by decide)⟩

/-- Claim C1 (code bug): the plain-text upload test_fake.pdf declared as
application/pdf is purged as undeterminable with the staged file deleted on
the legacy `/upload` route, as the claim states — but on the `/upload/pdf`
route of the second server variant the very same upload is answered 200
with the hardcoded detected type image/webp and the staged file remains in
storage, because `Uploaderpdf` is built without a target size and therefore
never calls `validateFile`. -/
theorem c1_fake_pdf_route_divergence :
    pipelineLegacyUpload fileTypeFromBytes true "u-c1" []
        ⟨"test_fake.pdf", "application/pdf", testFakePdfBytes⟩
      = ⟨.verificationRejected .undeterminableSignature, [],
         [.securityValidationFailed, .fileDeleted]⟩
    ∧ (pipelineUploadPdfV2 "u-c1" []
        ⟨"test_fake.pdf", "application/pdf", testFakePdfBytes⟩).outcome
      = .accepted "u-c1.pdf" "image/webp" 36
    ∧ (pipelineUploadPdfV2 "u-c1" []
        ⟨"test_fake.pdf", "application/pdf", testFakePdfBytes⟩).storage
      = [("u-c1.pdf", testFakePdfBytes)] := by
  refine ⟨by decide, by decide, by decide⟩

set_option maxRecDepth 4096 in
/-- Claim C3 (code bug): the minimal valid PDF valid_doc.pdf declared as
application/pdf reaches the accepted (Trusted) state with detected type
application/pdf on the legacy `/upload` route, as the claim states — but on
the `/upload/pdf` route of the second server variant the success response
reports the hardcoded detected type image/webp instead, and image/webp is
not application/pdf. -/
theorem c3_valid_pdf_detected_type :
    (pipelineLegacyUpload fileTypeFromBytes true "u-c3" []
        ⟨"valid_doc.pdf", "application/pdf", validDocPdfBytes⟩).outcome
      = .accepted "u-c3.pdf" "application/pdf" 281
    ∧ (pipelineUploadPdfV2 "u-c3" []
        ⟨"valid_doc.pdf", "application/pdf", validDocPdfBytes⟩).outcome
      = .accepted "u-c3.pdf" "image/webp" 281
    ∧ (.accepted "u-c3.pdf" "image/webp" 281 : UploadOutcome)
      ≠ .accepted "u-c3.pdf" "application/pdf" 281 := by
  refine ⟨by decide, by decide, by decide⟩

end SecureUpload
